import Mathlib

/-!
Shallow embedding of the bookstore-dashboard repository: the CSV loader
`herokucreatetable.py` and the query layer of `app.py`, together with
theorems checking the documented properties of the code.

Modelling choices: SQL text columns are `Option String` (`none` is NULL),
money amounts are rationals, each table is a list of rows in insertion
order, and serial ids are `length + 1` at insertion time (append-only
tables make this equivalent to a serial sequence for every property
below).
-/

namespace Bookstore

/-- Errors raised while processing one CSV row inside `read_and_load_data`:
dictionary access on a missing key (Python `KeyError`), or `float()` applied
to a malformed number (Python `ValueError`); the payload is the offending
key or string. -/
inductive RowErr where
  | keyError : String → RowErr
  | valueError : String → RowErr
  deriving DecidableEq, Repr

/-- One row produced by `csv.DictReader`: an association from header names to
cell values; a short CSV row yields `none` cells for the trailing headers. -/
abbrev CsvRow := List (String × Option String)

/-- Python `row[k]` on a dict: the value under `k`, or `KeyError` when the key
is absent. -/
def dictGet (r : CsvRow) (k : String) : Except RowErr (Option String) :=
  match r.lookup k with
  | some v => Except.ok v
  | none => Except.error (RowErr.keyError k)

/-- Python `row.get(k, d)`: the value under `k`, or the default when the key is
absent (never an error). -/
def dictGetD (r : CsvRow) (k : String) (d : Option String) : Option String :=
  match r.lookup k with
  | some v => v
  | none => d

/-- The whitespace set Python's `str.split()` and `str.strip()` use
(CPython's `Py_UNICODE_ISSPACE`): the ASCII whitespace characters including
vertical tab and form feed, the C0 information separators, NEL, no-break
space, and the Unicode space characters. -/
def pyWhitespace (c : Char) : Bool :=
  [0x09, 0x0a, 0x0b, 0x0c, 0x0d, 0x1c, 0x1d, 0x1e, 0x1f, 0x20, 0x85, 0xa0,
    0x1680, 0x2028, 0x2029, 0x202f, 0x205f, 0x3000].contains c.toNat ||
  (0x2000 ≤ c.toNat && c.toNat ≤ 0x200a)

/-- Python `str.strip()`: drop whitespace from both ends of the string. -/
def pyStrip (s : String) : String :=
  String.mk (((s.data.dropWhile pyWhitespace).reverse.dropWhile pyWhitespace).reverse)

/-- `sanitize_value` from herokucreatetable.py:
`value.strip()[:max_length] if value else None` with `max_length = 255`;
both `None` and the empty string are falsy in Python. -/
def sanitize_value (v : Option String) : Option String :=
  match v with
  | none => none
  | some s => if s = "" then none else some (String.mk ((pyStrip s).data.take 255))

/-- Digit run to a natural number (helper for the model of Python `float`). -/
def digitsToNat (l : List Char) : Nat :=
  l.foldl (fun a c => a * 10 + (c.toNat - 48)) 0

/-- Model of Python `float(s)` on plain decimal literals: optional surrounding
whitespace, an optional sign, then digits with an optional fractional part;
anything else raises `ValueError` carrying the original string.  (Exponents
and the inf/nan spellings are outside the inputs this development uses.) -/
def pyFloat (s : String) : Except RowErr ℚ :=
  let t := (pyStrip s).data
  let signed : ℚ × List Char :=
    match t with
    | '-' :: r => (-1, r)
    | '+' :: r => (1, r)
    | _ => (1, t)
  let ip := signed.2.takeWhile Char.isDigit
  let rest := signed.2.dropWhile Char.isDigit
  match rest with
  | [] =>
    if ip.isEmpty then Except.error (RowErr.valueError s)
    else Except.ok (signed.1 * (digitsToNat ip : ℚ))
  | '.' :: fp =>
    if fp.all Char.isDigit && !(ip.isEmpty && fp.isEmpty) then
      Except.ok (signed.1 * ((digitsToNat ip : ℚ) + (digitsToNat fp : ℚ) / (10 : ℚ) ^ fp.length))
    else Except.error (RowErr.valueError s)
  | _ => Except.error (RowErr.valueError s)

/-- The values one loop iteration of `read_and_load_data` extracts from a CSV
row before the inserts. -/
structure RowData where
  author_name : Option String
  category_name : Option String
  publisher_name : Option String
  title : Option String
  description : Option String
  price : ℚ
  publish_date : Option String
  deriving DecidableEq, Repr

/-- The body of the row loop in `read_and_load_data` (lines 106-127): sanitize
the text fields, parse the price (default 0 when falsy), and derive the
publish date from the bare year.  Errors are exactly the exceptions the
Python body can raise, at the point where it raises them: `KeyError` from the
four mandatory `row[...]` accesses, `ValueError` from `float`. -/
def processRow (r : CsvRow) : Except RowErr RowData :=
  match dictGet r "Authors" with
  | Except.error e => Except.error e
  | Except.ok authorsRaw =>
    match dictGet r "Category" with
    | Except.error e => Except.error e
    | Except.ok categoryRaw =>
      match dictGet r "Publisher" with
      | Except.error e => Except.error e
      | Except.ok publisherRaw =>
        match dictGet r "Title" with
        | Except.error e => Except.error e
        | Except.ok titleRaw =>
          match (match dictGetD r "Price Starting With ($)" (some "0") with
                 | none => Except.ok (0 : ℚ)
                 | some p => if p = "" then Except.ok (0 : ℚ) else pyFloat p) with
          | Except.error e => Except.error e
          | Except.ok price =>
            Except.ok
              { author_name := sanitize_value authorsRaw
                category_name := sanitize_value categoryRaw
                publisher_name := sanitize_value publisherRaw
                title := sanitize_value titleRaw
                description := sanitize_value (dictGetD r "Description" (some ""))
                price := price
                publish_date :=
                  match dictGetD r "Publish Date (Year)" none with
                  | none => none
                  | some y => if y = "" then none else some (y ++ "-01-01") }

/-- The row loop of `read_and_load_data`: a `KeyError` is caught, logged, and
the loop continues with the next row (`except KeyError ... continue`); any
other exception has no handler, propagates, and aborts the whole function
before any insert happens. -/
def collectRows : List CsvRow → Except RowErr (List RowData)
  | [] => Except.ok []
  | r :: rs =>
    match processRow r with
    | Except.ok d => (collectRows rs).map (fun ds => d :: ds)
    | Except.error (RowErr.keyError _) => collectRows rs
    | Except.error e => Except.error e

/-- True exactly on an uncaught `ValueError` outcome (the row-level error
`read_and_load_data` does not catch). -/
def isValueError {α : Type} : Except RowErr α → Bool
  | Except.error (RowErr.valueError _) => true
  | _ => false

/-- A row of `authors` as `setup_database` creates the table: serial primary
key plus three nullable text columns; the loader fills only `author_name`. -/
structure AuthorRow where
  author_id : Nat
  author_name : Option String
  first_name : Option String
  last_name : Option String
  deriving DecidableEq, Repr

/-- A row of `categories`: serial primary key and a nullable name. -/
structure CategoryRow where
  category_id : Nat
  category_name : Option String
  deriving DecidableEq, Repr

/-- A row of `publishers`: serial primary key and a nullable name. -/
structure PublisherRow where
  publisher_id : Nat
  publisher_name : Option String
  deriving DecidableEq, Repr

/-- A row of `books` as `setup_database` creates it: note there is no
`publication_year` column. -/
structure BookRow where
  book_id : Nat
  title : Option String
  author_id : Option Nat
  publisher_id : Option Nat
  category_id : Option Nat
  description : Option String
  deriving DecidableEq, Repr

/-- A row of `prices`; the loader always supplies a numeric price, so the
price column is modelled as a plain rational. -/
structure PriceRow where
  price_id : Nat
  book_id : Option Nat
  price : ℚ
  publish_date : Option String
  deriving DecidableEq, Repr

/-- The five tables `setup_database` creates. -/
structure DB where
  authors : List AuthorRow
  categories : List CategoryRow
  publishers : List PublisherRow
  books : List BookRow
  prices : List PriceRow
  deriving DecidableEq, Repr

/-- The state right after `setup_database` on a fresh database. -/
def emptyDB : DB := ⟨[], [], [], [], []⟩

/-- `CREATE TABLE authors` declares no UNIQUE constraint on `author_name`
(only the serial primary key), so an `ON CONFLICT DO NOTHING` insert of a
fresh serial row has no constraint that could ever fire. -/
def authorNameHasUniqueConstraint : Bool := false

/-- `CREATE TABLE categories` declares no UNIQUE constraint on
`category_name`. -/
def categoryNameHasUniqueConstraint : Bool := false

/-- `CREATE TABLE publishers` declares no UNIQUE constraint on
`publisher_name`. -/
def publisherNameHasUniqueConstraint : Bool := false

/-- The authors batch of `insert_data`: one
`INSERT ... ON CONFLICT DO NOTHING` per collected name.  A row is suppressed
only when a declared unique constraint is violated; the schema declares none
on `author_name`, so every name is appended with a fresh serial id. -/
def addAuthorNames (l : List AuthorRow) (names : List String) : List AuthorRow :=
  names.foldl
    (fun acc n =>
      if authorNameHasUniqueConstraint && acc.any (fun a => a.author_name == some n) then acc
      else acc ++ [{ author_id := acc.length + 1, author_name := some n,
                     first_name := none, last_name := none }])
    l

/-- The categories batch of `insert_data` (same conflict semantics). -/
def addCategoryNames (l : List CategoryRow) (names : List String) : List CategoryRow :=
  names.foldl
    (fun acc n =>
      if categoryNameHasUniqueConstraint && acc.any (fun c => c.category_name == some n) then acc
      else acc ++ [{ category_id := acc.length + 1, category_name := some n }])
    l

/-- The publishers batch of `insert_data` (same conflict semantics). -/
def addPublisherNames (l : List PublisherRow) (names : List String) : List PublisherRow :=
  names.foldl
    (fun acc n =>
      if publisherNameHasUniqueConstraint && acc.any (fun p => p.publisher_name == some n) then acc
      else acc ++ [{ publisher_id := acc.length + 1, publisher_name := some n }])
    l

/-- The in-memory sets `authors`, `categories`, `publishers` built during the
row loop: a name is added only when truthy (neither NULL nor empty), and a
Python set keeps a single copy of each element; modelled as a
first-occurrence list. -/
def collectNames (field : RowData → Option String) (rows : List RowData) : List String :=
  rows.foldl
    (fun acc r =>
      match field r with
      | some s => if s = "" then acc else if acc.contains s then acc else acc ++ [s]
      | none => acc)
    []

/-- The sub-query `SELECT author_id FROM authors WHERE author_name = %s
LIMIT 1`: NULL never equals anything, otherwise the first matching row. -/
def lookupAuthorId (l : List AuthorRow) (n : Option String) : Option Nat :=
  match n with
  | none => none
  | some s => (l.find? (fun a => a.author_name == some s)).map (fun a => a.author_id)

/-- `SELECT publisher_id FROM publishers WHERE publisher_name = %s LIMIT 1`. -/
def lookupPublisherId (l : List PublisherRow) (n : Option String) : Option Nat :=
  match n with
  | none => none
  | some s => (l.find? (fun p => p.publisher_name == some s)).map (fun p => p.publisher_id)

/-- `SELECT category_id FROM categories WHERE category_name = %s LIMIT 1`. -/
def lookupCategoryId (l : List CategoryRow) (n : Option String) : Option Nat :=
  match n with
  | none => none
  | some s => (l.find? (fun c => c.category_name == some s)).map (fun c => c.category_id)

/-- One `INSERT INTO books` statement: the three parent ids are looked up by
name (NULL when the lookup finds nothing); `idx` is the number of book rows
already present, giving the fresh serial id. -/
def mkBook (db : DB) (idx : Nat) (r : RowData) : BookRow :=
  { book_id := idx + 1
    title := r.title
    author_id := lookupAuthorId db.authors r.author_name
    publisher_id := lookupPublisherId db.publishers r.publisher_name
    category_id := lookupCategoryId db.categories r.category_name
    description := r.description }

/-- The books batch (lines 137-149): one insert per collected row; `books`
declares no unique constraint, so `ON CONFLICT DO NOTHING` never suppresses
a row and every tuple is appended. -/
def insertBooks (db : DB) (rows : List RowData) : DB :=
  { db with books := rows.foldl (fun bl r => bl ++ [mkBook db bl.length r]) db.books }

/-- One `INSERT INTO prices` statement: the book id comes from
`SELECT book_id FROM books WHERE title = %s LIMIT 1` (NULL title matches
nothing). -/
def mkPrice (books : List BookRow) (idx : Nat) (r : RowData) : PriceRow :=
  { price_id := idx + 1
    book_id :=
      match r.title with
      | none => none
      | some t => (books.find? (fun b => b.title == some t)).map (fun b => b.book_id)
    price := r.price
    publish_date := r.publish_date }

/-- The prices batch (lines 151-161), run after the books batch commits. -/
def insertPrices (db : DB) (rows : List RowData) : DB :=
  { db with prices := rows.foldl (fun pl r => pl ++ [mkPrice db.books pl.length r]) db.prices }

/-- The authors batch applied to the database. -/
def loadAuthors (db : DB) (rows : List RowData) : DB :=
  { db with authors := addAuthorNames db.authors (collectNames (fun r => r.author_name) rows) }

/-- The categories batch applied to the database. -/
def loadCategories (db : DB) (rows : List RowData) : DB :=
  { db with categories := addCategoryNames db.categories (collectNames (fun r => r.category_name) rows) }

/-- The publishers batch applied to the database. -/
def loadPublishers (db : DB) (rows : List RowData) : DB :=
  { db with publishers := addPublisherNames db.publishers (collectNames (fun r => r.publisher_name) rows) }

/-- The insert phase of `read_and_load_data`: names first (so the foreign-key
lookups can succeed), then books, then prices. -/
def loadData (db : DB) (rows : List RowData) : DB :=
  insertPrices (insertBooks (loadPublishers (loadCategories (loadAuthors db rows) rows) rows) rows) rows

/-- `read_and_load_data` after the file and header checks: process every row
(a `KeyError` skips the row, any other exception aborts before any insert),
then run the five insert batches. -/
def read_and_load_data (db : DB) (csv : List CsvRow) : Except RowErr DB :=
  (collectRows csv).map (fun rows => loadData db rows)

/-- The five insert batches of `read_and_load_data`, in execution order. -/
inductive Batch where
  | authors | categories | publishers | books | prices
  deriving DecidableEq, Repr

/-- The insert phase with an abstract per-batch failure oracle (modelling a
database error while that batch executes).  The first three batches go
through `insert_data`, whose `try/except` rolls the failed batch back and
continues.  The `books` and `prices` loops have no handler: a failure
propagates out of `read_and_load_data`, the failing batch is uncommitted
(rolled back when the connection closes) and nothing after it runs.  The
error carries the batch name and the database as committed so far. -/
def runLoad (fails : Batch → Bool) (db : DB) (rows : List RowData) :
    Except (String × DB) DB :=
  let db1 := if fails Batch.authors then db else loadAuthors db rows
  let db2 := if fails Batch.categories then db1 else loadCategories db1 rows
  let db3 := if fails Batch.publishers then db2 else loadPublishers db2 rows
  if fails Batch.books then Except.error ("books", db3)
  else
    let db4 := insertBooks db3 rows
    if fails Batch.prices then Except.error ("prices", db4)
    else Except.ok (insertPrices db4 rows)

/-- SQL `LIKE` pattern matching over character lists, with PostgreSQL's
default escape character: a backslash makes the following pattern character
match literally (so `\%`, `\_` and `\\` lose their special meaning, and
`\f` matches the letter f, not a backslash-f pair); `%` matches any
sequence, `_` matches any single character, every other pattern character
matches itself.  A pattern ending in a bare escape character is an error in
PostgreSQL ("LIKE pattern must not end with escape character"), so no row
matches it; the patterns app.py builds always end in `%` and never hit that
case. -/
def likeMatch : List Char → List Char → Bool
  | [], s => s.isEmpty
  | p :: ps, s =>
    if p = '\\' then
      match ps with
      | [] => false
      | q :: ps' =>
        match s with
        | [] => false
        | c :: s' => (c == q) && likeMatch ps' s'
    else if p = '%' then
      likeMatch ps s ||
        (match s with
         | [] => false
         | _ :: s' => likeMatch (p :: ps) s')
    else
      match s with
      | [] => false
      | c :: s' => if p = '_' then likeMatch ps s' else (c == p) && likeMatch ps s'
  termination_by p s => (s.length, p.length)

/-- Split a character list the way Python `str.split()` does: maximal runs
of Python whitespace separate the words, empty pieces are dropped.  `acc`
holds the current word reversed. -/
def splitWsAux : List Char → List Char → List (List Char)
  | [], acc => if acc.isEmpty then [] else [acc.reverse]
  | c :: cs, acc =>
    if pyWhitespace c then
      if acc.isEmpty then splitWsAux cs [] else acc.reverse :: splitWsAux cs []
    else splitWsAux cs (c :: acc)

/-- Python `s.split()` on characters. -/
def splitWs (l : List Char) : List (List Char) := splitWsAux l []

/-- Join word lists with single spaces (Python `' '.join(...)`). -/
def joinSpace : List (List Char) → List Char
  | [] => []
  | [w] => w
  | w :: ws => w ++ (' ' :: joinSpace ws)

/-- Python `' '.join(s.split())`: collapse every internal whitespace run to a
single space and drop surrounding whitespace.  app.py builds its ILIKE
parameter from the search string this way. -/
def normalizeWs (l : List Char) : List Char := joinSpace (splitWs l)

/-- The ILIKE parameter `f"%{' '.join(category_name.split())}%"` used by the
category queries of app.py. -/
def categoryPattern (search : String) : List Char :=
  '%' :: (normalizeWs search.data ++ ['%'])

/-- PostgreSQL `ILIKE`: `LIKE` after lower-casing both pattern and operand. -/
def ilike (pat s : List Char) : Bool :=
  likeMatch (pat.map Char.toLower) (s.map Char.toLower)

/-- The predicate `c.category_name ILIKE %s` with app.py's parameter, applied
to a stored category name. -/
def categoryMatches (search name : String) : Bool :=
  ilike (categoryPattern search) name.data

/-- Column lists of the five tables exactly as `setup_database` creates
them. -/
def tableColumns : String → List String
  | "authors" => ["author_id", "author_name", "first_name", "last_name"]
  | "categories" => ["category_id", "category_name"]
  | "publishers" => ["publisher_id", "publisher_name"]
  | "books" => ["book_id", "title", "author_id", "publisher_id", "category_id", "description"]
  | "prices" => ["price_id", "book_id", "price", "publish_date"]
  | _ => []

/-- Errors a query execution can surface to the `except` clause of the fetch
functions. -/
inductive SqlError where
  | undefinedColumn : String → SqlError
  | connectionError : String → SqlError
  deriving DecidableEq, Repr

/-- The message text attached to a query error. -/
def sqlErrorText : SqlError → String
  | SqlError.undefinedColumn c => "column " ++ c ++ " does not exist"
  | SqlError.connectionError m => m

/-- First column referenced by a query that its table does not have.
PostgreSQL resolves column references before touching any row, so such a
query raises UndefinedColumn on every database with this schema. -/
def undefinedColumnOf (refs : List (String × List String)) : Option String :=
  (refs.flatMap (fun tc => tc.2.filter (fun c => !((tableColumns tc.1).contains c)))).head?

/-- Columns referenced per table by the SQL of `fetch_books_by_category`. -/
def booksByCategoryRefs : List (String × List String) :=
  [("books", ["title", "category_id", "book_id"]),
   ("categories", ["category_name", "category_id"]),
   ("prices", ["price", "book_id"])]

/-- Columns referenced per table by the SQL of `fetch_summary_statistics`. -/
def summaryRefs : List (String × List String) :=
  [("books", ["book_id", "category_id"]),
   ("prices", ["price", "book_id"]),
   ("categories", ["category_id"])]

/-- Columns referenced per table by the SQL of
`fetch_most_recent_book_by_category`; note `publication_year` on `books`. -/
def mostRecentRefs : List (String × List String) :=
  [("books", ["title", "publication_year", "category_id"]),
   ("categories", ["category_id", "category_name"])]

/-- Columns referenced per table by the SQL of
`fetch_books_by_price_and_category`; note `publication_year` on `books`. -/
def priceCatRefs : List (String × List String) :=
  [("books", ["title", "category_id", "book_id", "publication_year"]),
   ("categories", ["category_name", "category_id"]),
   ("prices", ["price", "book_id"])]

/-- Executing the SQL of `fetch_books_by_category` against the
`setup_database` schema: all referenced columns exist, and the rows are the
join of books, matching categories and prices.  (The `ORDER BY pr.price` is
not modelled; no property below depends on row order.) -/
def run_fetch_books_by_category (db : DB) (search : String) :
    Except SqlError (List (Option String × ℚ × Option String)) :=
  match undefinedColumnOf booksByCategoryRefs with
  | some c => Except.error (SqlError.undefinedColumn c)
  | none =>
    Except.ok
      (db.books.flatMap (fun b =>
        db.categories.flatMap (fun c =>
          match c.category_name with
          | some nm =>
            if (b.category_id == some c.category_id) && categoryMatches search nm then
              (db.prices.filter (fun p => p.book_id == some b.book_id)).map
                (fun p => (b.title, p.price, some nm))
            else []
          | none => [])))

/-- The multiset of rows of the summary join
`books JOIN prices ON book_id JOIN categories ON category_id`,
projected to (book_id, price, category_id). -/
def summaryRows (db : DB) : List (Nat × ℚ × Nat) :=
  db.prices.flatMap (fun p =>
    db.books.flatMap (fun b =>
      if p.book_id = some b.book_id then
        db.categories.flatMap (fun c =>
          if b.category_id = some c.category_id then
            [(b.book_id, p.price, c.category_id)]
          else [])
      else []))

/-- Executing the summary SQL of app.py: COUNT(DISTINCT book_id), AVG(price)
and COUNT(DISTINCT category_id) over the summary join.  SQL `AVG` of no rows
is NULL, modelled as `none`. -/
def run_fetch_summary_statistics (db : DB) : Except SqlError (Nat × Option ℚ × Nat) :=
  match undefinedColumnOf summaryRefs with
  | some c => Except.error (SqlError.undefinedColumn c)
  | none =>
    let col := (summaryRows db).map (fun r => r.2.1)
    Except.ok
      (((summaryRows db).map (fun r => r.1)).dedup.length,
       (if col.isEmpty then none else some (col.sum / (col.length : ℚ))),
       ((summaryRows db).map (fun r => r.2.2)).dedup.length)

/-- Executing the SQL of `fetch_most_recent_book_by_category`: it selects and
orders by `b.publication_year`, a column `setup_database` never creates, so
column resolution fails before any row is read.  The `ok` branch is
unreachable against this schema (the row shape could not even be stated over
`BookRow`). -/
def run_fetch_most_recent_book_by_category (_db : DB) (_search : String) :
    Except SqlError (Option (Option String × Int)) :=
  match undefinedColumnOf mostRecentRefs with
  | some c => Except.error (SqlError.undefinedColumn c)
  | none => Except.ok none

/-- Executing the SQL of `fetch_books_by_price_and_category`: it selects
`b.publication_year`, a column `setup_database` never creates, so column
resolution fails before the category or price filters are evaluated. -/
def run_fetch_books_by_price_and_category (_db : DB) (_search : String) (_maxPrice : ℚ) :
    Except SqlError (List Unit) :=
  match undefinedColumnOf priceCatRefs with
  | some c => Except.error (SqlError.undefinedColumn c)
  | none => Except.ok []

/-- `fetch_books_by_category` from app.py around its cursor: on success the
rows become a DataFrame (possibly empty); on any exception `st.error` shows a
message and the function returns `None`.  The second component is the list of
error messages shown. -/
def fetch_books_by_category (res : Except SqlError (List (Option String × ℚ × Option String))) :
    Option (List (Option String × ℚ × Option String)) × List String :=
  match res with
  | Except.ok rows => (some rows, [])
  | Except.error e => (none, ["Error fetching books by category: " ++ sqlErrorText e])

/-- A row of the all-books join of `fetch_books_and_authors`. -/
abbrev BooksAuthorsRow :=
  Nat × Option String × Option String × Option String × Option String × ℚ × Option String

/-- `fetch_books_and_authors`: same catch-and-return-None shape. -/
def fetch_books_and_authors (res : Except SqlError (List BooksAuthorsRow)) :
    Option (List BooksAuthorsRow) × List String :=
  match res with
  | Except.ok rows => (some rows, [])
  | Except.error e => (none, ["Error fetching books and authors: " ++ sqlErrorText e])

/-- Round a rational to two decimal places with ties to even, the rounding
Python's `round` applies to the `Decimal` values psycopg2 returns for SQL
numerics. -/
def roundQ2 (x : ℚ) : ℚ :=
  let y := x * 100
  let n : ℤ := ⌊y⌋
  let r := y - (n : ℚ)
  if r < 1 / 2 then (n : ℚ) / 100
  else if 1 / 2 < r then ((n : ℚ) + 1) / 100
  else if n % 2 = 0 then (n : ℚ) / 100 else ((n : ℚ) + 1) / 100

/-- `fetch_summary_statistics`: on success build the stats record —
`round(result[1], 2) if result[1] else 0` rounds the average to two decimals,
with both SQL NULL and an average of exactly 0 giving 0; on an exception
`st.error` shows a message and `None` is returned. -/
def fetch_summary_statistics (res : Except SqlError (Nat × Option ℚ × Nat)) :
    Option (Nat × ℚ × Nat) × List String :=
  match res with
  | Except.ok x =>
    (some (x.1,
       (match x.2.1 with
        | none => 0
        | some a => if a = 0 then 0 else roundQ2 a),
       x.2.2), [])
  | Except.error e => (none, ["Error fetching summary statistics: " ++ sqlErrorText e])

/-- `fetch_most_recent_book_by_category`: `fetchone` yields at most one row;
`if result:` turns a missing row into `None`; exceptions are caught, shown,
and `None` is returned. -/
def fetch_most_recent_book_by_category (res : Except SqlError (Option (Option String × Int))) :
    Option (Option String × Int) × List String :=
  match res with
  | Except.ok r => (r, [])
  | Except.error e => (none, ["Error fetching most recent book by category: " ++ sqlErrorText e])

/-- `fetch_books_by_price_and_category`: same catch-and-return-None shape. -/
def fetch_books_by_price_and_category (res : Except SqlError (List Unit)) :
    Option (List Unit) × List String :=
  match res with
  | Except.ok rows => (some rows, [])
  | Except.error e => (none, ["Error fetching books by price and category: " ++ sqlErrorText e])

/-- A `prices` row contributes to the summary join: its `book_id` matches a
book row (the first such row — the unique one when `book_id` is a primary
key) that in turn references an existing category. -/
def priceRowCounted (db : DB) (p : PriceRow) : Bool :=
  match db.books.find? (fun b => p.book_id == some b.book_id) with
  | some b => db.categories.any (fun c => b.category_id == some c.category_id)
  | none => false

/-- The average the summary query actually computes, before rounding: the
mean over prices rows that join to an existing book whose `category_id` also
refers to an existing category. -/
def joinedAveragePrice (db : DB) : Option ℚ :=
  let ps := (db.prices.filter (fun p => priceRowCounted db p)).map (fun p => p.price)
  if ps.isEmpty then none else some (ps.sum / (ps.length : ℚ))

/-- The Average Price value as the spec describes it: the arithmetic mean,
rounded to two decimals, of the price column over all rows of the prices
table whose `book_id` refers to an existing book (`none` when there is no
such row).  Stated from the spec's words, to be compared with the value the
code computes. -/
def specAveragePrice (db : DB) : Option ℚ :=
  let ps := (db.prices.filter (fun p => db.books.any (fun b => p.book_id == some b.book_id))).map
    (fun p => p.price)
  if ps.isEmpty then none else some (roundQ2 (ps.sum / (ps.length : ℚ)))

/-- A live psycopg2 connection object.  `get_db_connection` never produces
one. -/
structure PGConn where
  id : Nat
  deriving DecidableEq, Repr

/-- What the environment does when app.py calls `psycopg2.connect`. -/
inductive ConnectOutcome where
  | ok : List String → ConnectOutcome
  | failed : String → ConnectOutcome

/-- `get_db_connection` from app.py: on success it opens a connection, lists
the public tables, closes the connection again, and falls off the end of the
function — no branch has a `return` statement, so Python yields `None`; on
failure the exception is caught and logged and the function likewise ends
without a `return`. -/
def get_db_connection (env : ConnectOutcome) : Option PGConn :=
  match env with
  | ConnectOutcome.ok _tables => none
  | ConnectOutcome.failed _ => none

/-- The `st.session_state` slice the connection logic uses. -/
structure SessionState where
  conn : Option PGConn
  deriving DecidableEq, Repr

/-- `st.session_state` right after initialization: `conn = None`. -/
def initialSessionState : SessionState := { conn := none }

/-- `connect_to_database`: when no connection is stored, store the result of
`get_db_connection()` and report success or failure by its truthiness.  The
second component is the sidebar message shown (empty when nothing is done). -/
def connect_to_database (env : ConnectOutcome) (s : SessionState) :
    SessionState × String :=
  if s.conn = none then
    let c := get_db_connection env
    ({ conn := c },
     if c.isSome then "Connected to the database successfully!"
     else "Failed to connect to the database.")
  else (s, "")

/-- The five query tabs are created only under `if st.session_state.conn:`. -/
def tabsRendered (s : SessionState) : Bool := s.conn.isSome

/-- The normalization contract for one processed CSV row, in the spec's
terms: every present text field is the corresponding raw value stripped of
surrounding whitespace and truncated to at most 255 characters; the price is
0 when the raw price is missing or empty and otherwise its parsed value; the
publish date is the bare year extended with January 1st, or absent when the
year is. -/
def rowNormalized (r : CsvRow) (d : RowData) : Prop :=
  (∀ o ∈ [d.author_name, d.category_name, d.publisher_name, d.title, d.description],
    ∀ s, o = some s →
      s.length ≤ 255 ∧ ∃ raw : String, s = String.mk ((pyStrip raw).data.take 255)) ∧
  ((dictGetD r "Price Starting With ($)" (some "0") = none ∨
      dictGetD r "Price Starting With ($)" (some "0") = some "") → d.price = 0) ∧
  (∀ p, dictGetD r "Price Starting With ($)" (some "0") = some p → p ≠ "" →
      pyFloat p = Except.ok d.price) ∧
  ((dictGetD r "Publish Date (Year)" none = none ∨
      dictGetD r "Publish Date (Year)" none = some "") → d.publish_date = none) ∧
  (∀ y, dictGetD r "Publish Date (Year)" none = some y → y ≠ "" →
      d.publish_date = some (y ++ "-01-01"))

/-- A complete one-row CSV (as `csv.DictReader` presents it). -/
def csvRowA : CsvRow :=
  [("Authors", some "A"), ("Category", some "C"), ("Publisher", some "P"),
   ("Title", some "T"), ("Description", some "D"),
   ("Price Starting With ($)", some "5"), ("Publish Date (Year)", some "2020")]

/-- Loading the one-row CSV `csvRowA` twice into a fresh database. -/
def loadTwice : Except RowErr DB :=
  match read_and_load_data emptyDB [csvRowA] with
  | Except.ok d1 => read_and_load_data d1 [csvRowA]
  | Except.error e => Except.error e

/-- A well-formed CSV row with title T1. -/
def goodRowA : CsvRow :=
  [("Authors", some "A1"), ("Category", some "C1"), ("Publisher", some "P1"),
   ("Title", some "T1"), ("Description", some "D1"),
   ("Price Starting With ($)", some "5"), ("Publish Date (Year)", some "2020")]

/-- A well-formed CSV row with title T2. -/
def goodRowB : CsvRow :=
  [("Authors", some "A2"), ("Category", some "C2"), ("Publisher", some "P2"),
   ("Title", some "T2"), ("Description", some "D2"),
   ("Price Starting With ($)", some "6"), ("Publish Date (Year)", some "2021")]

/-- A row without an "Authors" key: `row['Authors']` raises `KeyError`. -/
def keyErrorRow : CsvRow :=
  [("Category", some "C3"), ("Publisher", some "P3"),
   ("Title", some "T3"), ("Description", some "D3"),
   ("Price Starting With ($)", some "7"), ("Publish Date (Year)", some "2022")]

/-- A row whose price is not a number: `float('abc')` raises `ValueError`. -/
def badPriceRow : CsvRow :=
  [("Authors", some "A4"), ("Category", some "C4"), ("Publisher", some "P4"),
   ("Title", some "T4"), ("Description", some "D4"),
   ("Price Starting With ($)", some "abc"), ("Publish Date (Year)", some "2023")]

/-- One processed row with every field present. -/
def rowDataA : RowData :=
  { author_name := some "A", category_name := some "C", publisher_name := some "P",
    title := some "T", description := some "D", price := 5,
    publish_date := some "2020-01-01" }

/-- The database after the three name batches of a one-row load into a fresh
database succeed. -/
def dbAfterNameBatches : DB :=
  { authors := [{ author_id := 1, author_name := some "A",
                  first_name := none, last_name := none }],
    categories := [{ category_id := 1, category_name := some "C" }],
    publishers := [{ publisher_id := 1, publisher_name := some "P" }],
    books := [], prices := [] }

/-- A database with two priced books, one of which has a NULL `category_id`:
its price row joins an existing book but no category. -/
def twoBookDB : DB :=
  { authors := [],
    categories := [{ category_id := 1, category_name := some "Fiction" }],
    publishers := [],
    books :=
      [{ book_id := 1, title := some "A", author_id := none, publisher_id := none,
         category_id := some 1, description := none },
       { book_id := 2, title := some "B", author_id := none, publisher_id := none,
         category_id := none, description := none }],
    prices :=
      [{ price_id := 1, book_id := some 1, price := 10, publish_date := none },
       { price_id := 2, book_id := some 2, price := 20, publish_date := none }] }

/-- A CSV row whose author field carries surrounding whitespace. -/
def witnessCsvRow : CsvRow :=
  [("Authors", some "  Jane  "), ("Category", some "Sci"), ("Publisher", some "Pub"),
   ("Title", some "T1"), ("Description", some "D"),
   ("Price Starting With ($)", some "7"), ("Publish Date (Year)", some "2020")]

/-- The row data `processRow` produces from `witnessCsvRow`. -/
def witnessRowData : RowData :=
  { author_name := some "Jane", category_name := some "Sci", publisher_name := some "Pub",
    title := some "T1", description := some "D", price := 7,
    publish_date := some "2020-01-01" }

/-- C1: whenever `psycopg2.connect` succeeds, `get_db_connection` still
returns an absent result (its body has no `return`), so `connect_to_database`
stores `None` in the session state, reports a failure, and the query tabs are
never rendered. -/
theorem get_db_connection_always_none (tables : List String) :
    get_db_connection (ConnectOutcome.ok tables) = none ∧
    (connect_to_database (ConnectOutcome.ok tables) initialSessionState).1.conn = none ∧
    tabsRendered (connect_to_database (ConnectOutcome.ok tables) initialSessionState).1 = false ∧
    (connect_to_database (ConnectOutcome.ok tables) initialSessionState).2 =
      "Failed to connect to the database." :=
  ⟨rfl, rfl, rfl, rfl⟩

/-- C2 (code evaluated at the failing input): loading the same one-row CSV
twice into a fresh `setup_database` database leaves two author rows, two
category rows and two publisher rows with the same name — the tables declare
no unique constraint on the name columns, so `ON CONFLICT DO NOTHING` never
suppresses the second insert. -/
theorem double_load_duplicates_names :
    loadTwice.toOption.map
      (fun d =>
        ((d.authors.filter (fun a => a.author_name == some "A")).length,
         (d.categories.filter (fun c => c.category_name == some "C")).length,
         (d.publishers.filter (fun p => p.publisher_name == some "P")).length)) =
      some (2, 2, 2) := by
  rfl

/-- C3 (code evaluated at the failing input): on a fresh `setup_database`
database and a category that matches nothing, `fetch_books_by_price_and_category`
does not return an empty DataFrame — its SQL references `b.publication_year`,
which the `books` table does not have, so the query errors and the function
returns an absent result with a user-facing error message. -/
theorem price_category_query_undefined_column :
    run_fetch_books_by_price_and_category emptyDB "Nonexistent" 20 =
      Except.error (SqlError.undefinedColumn "publication_year") ∧
    (fetch_books_by_price_and_category
        (run_fetch_books_by_price_and_category emptyDB "Nonexistent" 20)).1 = none ∧
    (fetch_books_by_price_and_category
        (run_fetch_books_by_price_and_category emptyDB "Nonexistent" 20)).2 ≠ [] :=
  ⟨rfl, rfl, by decide⟩

/-- C4 (code evaluated at the failing inputs): against any database with the
`setup_database` schema and any category, the SQL of
`fetch_most_recent_book_by_category` references `b.publication_year`, a
column `books` does not have, so the query always errors and the function
always returns an absent result — never the most recent matching book. -/
theorem most_recent_query_undefined_column (db : DB) (search : String) :
    run_fetch_most_recent_book_by_category db search =
      Except.error (SqlError.undefinedColumn "publication_year") ∧
    (fetch_most_recent_book_by_category
        (run_fetch_most_recent_book_by_category db search)).1 = none :=
  ⟨rfl, rfl⟩

/-- C9: every query function of the dashboard catches a failure of its query
execution inside the function, surfaces it as a user-facing error message,
and returns an absent result instead of propagating the exception. -/
theorem fetch_functions_catch_errors (e : SqlError) :
    (fetch_books_by_category (Except.error e)).1 = none ∧
    (fetch_books_by_category (Except.error e)).2 ≠ [] ∧
    (fetch_books_and_authors (Except.error e)).1 = none ∧
    (fetch_books_and_authors (Except.error e)).2 ≠ [] ∧
    (fetch_summary_statistics (Except.error e)).1 = none ∧
    (fetch_summary_statistics (Except.error e)).2 ≠ [] ∧
    (fetch_most_recent_book_by_category (Except.error e)).1 = none ∧
    (fetch_most_recent_book_by_category (Except.error e)).2 ≠ [] ∧
    (fetch_books_by_price_and_category (Except.error e)).1 = none ∧
    (fetch_books_by_price_and_category (Except.error e)).2 ≠ [] :=
  ⟨rfl, by simp [fetch_books_by_category], rfl, by simp [fetch_books_and_authors],
   rfl, by simp [fetch_summary_statistics], rfl, by simp [fetch_most_recent_book_by_category],
   rfl, by simp [fetch_books_by_price_and_category]⟩

/-- Unfolding equation: the empty pattern matches only the empty string. -/
theorem likeMatch_nil (s : List Char) : likeMatch [] s = s.isEmpty := by
  rw [likeMatch]

/-- Unfolding equation: a `%`-headed pattern against the empty string. -/
theorem likeMatch_percent_cons_nil (ps : List Char) :
    likeMatch ('%' :: ps) [] = likeMatch ps [] := by
  rw [likeMatch.eq_def]
  simp

/-- Unfolding equation: `%` either absorbs nothing or one more character. -/
theorem likeMatch_percent_cons (ps : List Char) (c : Char) (s : List Char) :
    likeMatch ('%' :: ps) (c :: s) =
      (likeMatch ps (c :: s) || likeMatch ('%' :: ps) s) := by
  rw [likeMatch.eq_def]
  simp

/-- Unfolding equation: `_` consumes exactly one character. -/
theorem likeMatch_underscore_cons (ps : List Char) (c : Char) (s : List Char) :
    likeMatch ('_' :: ps) (c :: s) = likeMatch ps s := by
  rw [likeMatch.eq_def]
  simp

/-- Unfolding equation: an ordinary pattern character matches itself. -/
theorem likeMatch_lit_cons (p : Char) (ps : List Char) (c : Char) (s : List Char)
    (hp0 : p ≠ '\\') (hp1 : p ≠ '%') (hp2 : p ≠ '_') :
    likeMatch (p :: ps) (c :: s) = ((c == p) && likeMatch ps s) := by
  rw [likeMatch.eq_def]
  simp [hp0, hp1, hp2]

/-- A leading `%` can absorb any prefix of the string. -/
theorem likeMatch_percent_skip (ps : List Char) (pre : List Char) :
    ∀ s : List Char, likeMatch ('%' :: ps) s = true →
      likeMatch ('%' :: ps) (pre ++ s) = true := by
  induction pre with
  | nil => intro s h; exact h
  | cons c pre ih =>
    intro s h
    rw [List.cons_append, likeMatch_percent_cons]
    simp only [Bool.or_eq_true]
    exact Or.inr (ih s h)

/-- A leading `%` can absorb nothing. -/
theorem likeMatch_percent_intro (ps s : List Char) (h : likeMatch ps s = true) :
    likeMatch ('%' :: ps) s = true := by
  cases s with
  | nil => rw [likeMatch_percent_cons_nil]; exact h
  | cons c s =>
    rw [likeMatch_percent_cons]
    simp only [Bool.or_eq_true]
    exact Or.inl h

/-- A backslash-free pattern matches itself extended by a matching
remainder: without the escape character, every pattern character — wildcards
included — matches its own literal occurrence. -/
theorem likeMatch_lit_append :
    ∀ (X rest s : List Char), '\\' ∉ X → likeMatch rest s = true →
      likeMatch (X ++ rest) (X ++ s) = true := by
  intro X
  induction X with
  | nil => intro rest s hesc h; simpa using h
  | cons c X ih =>
    intro rest s hesc h
    rw [List.mem_cons, not_or] at hesc
    rw [List.cons_append, List.cons_append]
    by_cases hc : c = '%'
    · subst hc
      rw [likeMatch_percent_cons]
      simp only [Bool.or_eq_true]
      exact Or.inr (likeMatch_percent_intro _ _ (ih rest s hesc.2 h))
    · by_cases hu : c = '_'
      · subst hu
        rw [likeMatch_underscore_cons]
        exact ih rest s hesc.2 h
      · rw [likeMatch_lit_cons c _ c _ (fun hb => hesc.1 hb.symm) hc hu]
        simp only [beq_self_eq_true, Bool.true_and]
        exact ih rest s hesc.2 h

/-- A single `%` matches any string. -/
theorem likeMatch_percent_any : ∀ s : List Char, likeMatch ['%'] s = true := by
  intro s
  induction s with
  | nil => rw [likeMatch_percent_cons_nil, likeMatch_nil]; rfl
  | cons c s ih =>
    rw [likeMatch_percent_cons]
    simp only [Bool.or_eq_true]
    exact Or.inr ih

/-- The pattern `%X%` with backslash-free `X` matches any string containing
`X` as a factor. -/
theorem likeMatch_contains (X pre post : List Char) (hesc : '\\' ∉ X) :
    likeMatch ('%' :: (X ++ ['%'])) (pre ++ (X ++ post)) = true := by
  apply likeMatch_percent_skip
  apply likeMatch_percent_intro
  apply likeMatch_lit_append _ _ _ hesc
  apply likeMatch_percent_any

/-- C7 counterexample: a search string containing a backslash can fail to
match its own literal occurrence.  The collapsed, case-folded search string
"sci\fi" is (as the first conjunct evaluates) exactly the stored name, so it
trivially occurs inside it — yet the query does not match, because ILIKE
treats the backslash as its default escape character: in the bound pattern
`%sci\fi%` the sequence `\f` matches a literal f, never a backslash-f pair.
The claim's universal quantification over search strings is therefore
false. -/
theorem categoryMatches_escape_counterexample :
    "sci\\fi".data.map Char.toLower =
      ([] : List Char) ++ ((normalizeWs "sci\\fi".data).map Char.toLower ++ []) ∧
    categoryMatches "sci\\fi" "sci\\fi" = false := by
  constructor
  · decide
  · have h1 : (categoryPattern "sci\\fi").map Char.toLower = "%sci\\fi%".data := by decide
    have h2 : "sci\\fi".data.map Char.toLower = "sci\\fi".data := by decide
    unfold categoryMatches ilike
    rw [h1, h2]
    simp [likeMatch]

/-- C7 amended: for search strings that contain no backslash — PostgreSQL's
default ILIKE escape character, which case folding neither produces nor
removes — the dashboard's category search matches whenever the search
string, with its whitespace runs collapsed to single spaces and compared
ignoring letter case, occurs inside the stored category name.
`categoryMatches` is exactly the predicate `c.category_name ILIKE %s` that
`fetch_books_by_category` evaluates on each stored category name, with
app.py's parameter `f"%{' '.join(category_name.split())}%"`. -/
theorem categoryMatches_of_substring (search name : String) (pre post : List Char)
    (hesc : '\\' ∉ (normalizeWs search.data).map Char.toLower)
    (h : name.data.map Char.toLower =
      pre ++ ((normalizeWs search.data).map Char.toLower ++ post)) :
    categoryMatches search name = true := by
  have hpc : Char.toLower '%' = '%' := rfl
  unfold categoryMatches ilike categoryPattern
  rw [List.map_cons, List.map_append, hpc, h]
  simpa using likeMatch_contains ((normalizeWs search.data).map Char.toLower) pre post hesc

/-- Witness for the amended C7 at the spec's own example: the backslash-free
search string "Science  Fiction" (two internal spaces) matches the stored
category "science fiction". -/
theorem categoryMatches_science_fiction :
    categoryMatches "Science  Fiction" "science fiction" = true :=
  categoryMatches_of_substring "Science  Fiction" "science fiction" [] []
    (by decide) (by decide)

/-- Unfolding equation for the row loop. -/
theorem collectRows_cons (x : CsvRow) (l : List CsvRow) :
    collectRows (x :: l) =
      (match processRow x with
       | Except.ok d => (collectRows l).map (fun ds => d :: ds)
       | Except.error (RowErr.keyError _) => collectRows l
       | Except.error e => Except.error e) := rfl

/-- C5 counterexample: a CSV with valid headers whose middle row has the
non-numeric price "abc" makes the whole load abort with an uncaught
`ValueError` — nothing at all is inserted — while the same CSV without that
row loads both of its rows.  One bad row therefore does stop the remaining
rows from being collected and loaded, contradicting the claim. -/
theorem value_error_aborts_load :
    isValueError (read_and_load_data emptyDB [goodRowA, badPriceRow, goodRowB]) = true ∧
    (read_and_load_data emptyDB [goodRowA, goodRowB]).toOption.map
      (fun d => d.books.length) = some 2 :=
  ⟨rfl, rfl⟩

/-- C5 amended: a row whose processing raises `KeyError` is skipped and the
loop continues with the remaining rows unchanged; a row whose processing
raises any other error (such as `ValueError` from a non-numeric price)
aborts the load at that row, with no handler, provided no earlier row
already did. -/
theorem keyerror_skipped_other_errors_abort :
    (∀ (pre post : List CsvRow) (r : CsvRow) (k : String),
       processRow r = Except.error (RowErr.keyError k) →
       collectRows (pre ++ r :: post) = collectRows (pre ++ post)) ∧
    (∀ (pre post : List CsvRow) (r : CsvRow) (m : String),
       (∀ r' ∈ pre, isValueError (processRow r') = false) →
       processRow r = Except.error (RowErr.valueError m) →
       collectRows (pre ++ r :: post) = Except.error (RowErr.valueError m)) := by
  constructor
  · intro pre post r k hk
    induction pre with
    | nil => rw [List.nil_append, List.nil_append, collectRows_cons, hk]
    | cons x xs ih =>
      rw [List.cons_append, List.cons_append, collectRows_cons, collectRows_cons, ih]
  · intro pre post r m hpre hr
    induction pre with
    | nil => rw [List.nil_append, collectRows_cons, hr]
    | cons x xs ih =>
      have hx : isValueError (processRow x) = false := hpre x (by simp)
      have htail : ∀ r' ∈ xs, isValueError (processRow r') = false :=
        fun r' hr' => hpre r' (by simp [hr'])
      rw [List.cons_append, collectRows_cons]
      cases hpx : processRow x with
      | ok d => rw [ih htail]; rfl
      | error e =>
        cases e with
        | keyError k' => exact ih htail
        | valueError m' => rw [hpx] at hx; simp [isValueError] at hx

/-- Witness for the amended C5: the `KeyError` row (missing "Authors" key) is
skipped, while the `ValueError` row (price "abc") aborts the load. -/
theorem keyerror_skipped_other_errors_abort_witness :
    collectRows ([goodRowA] ++ keyErrorRow :: [goodRowB]) =
      collectRows ([goodRowA] ++ [goodRowB]) ∧
    collectRows ([goodRowA] ++ badPriceRow :: [goodRowB]) =
      Except.error (RowErr.valueError "abc") :=
  ⟨keyerror_skipped_other_errors_abort.1 [goodRowA] [goodRowB] keyErrorRow "Authors" rfl,
   keyerror_skipped_other_errors_abort.2 [goodRowA] [goodRowB] badPriceRow "abc"
     (by intro r' hr'; simp at hr'; subst hr'; rfl) rfl⟩

/-- Folding snoc-style inserts adds one row per input. -/
theorem foldl_snoc_length {α β : Type} (g : List β → α → β) :
    ∀ (l : List α) (acc : List β),
      (l.foldl (fun acc x => acc ++ [g acc x]) acc).length = acc.length + l.length := by
  intro l
  induction l with
  | nil => intro acc; rfl
  | cons x xs ih =>
    intro acc
    rw [List.foldl_cons, ih]
    simp only [List.length_append, List.length_cons, List.length_nil]
    omega

/-- C6 counterexample: when the books batch fails, the load aborts — the
prices batch never executes (the error state still has the three name
batches committed and no prices), while the same load with no failure
inserts a price row.  A books-batch failure therefore does not leave
subsequent batches running, contradicting the claim. -/
theorem books_batch_failure_aborts_load :
    runLoad (fun b => b == Batch.books) emptyDB [rowDataA] =
      Except.error ("books", dbAfterNameBatches) ∧
    (runLoad (fun _ => false) emptyDB [rowDataA]).toOption.map
      (fun d => d.prices.length) = some 1 :=
  ⟨rfl, rfl⟩

/-- C6 amended: only the three batches that go through `insert_data`
(authors, categories, publishers) are isolated: a failure there rolls back
exactly that batch — its table is left unchanged while every other batch,
including the later books and prices loops, still executes.  (A failure in
the books or prices loop instead aborts the load, as the counterexample
shows.) -/
theorem insert_data_batches_isolated (fails : Batch → Bool) (db : DB) (rows : List RowData)
    (hb : fails Batch.books = false) (hp : fails Batch.prices = false) :
    ∃ d : DB, runLoad fails db rows = Except.ok d ∧
      d.authors = (if fails Batch.authors then db.authors
        else addAuthorNames db.authors (collectNames (fun r => r.author_name) rows)) ∧
      d.categories = (if fails Batch.categories then db.categories
        else addCategoryNames db.categories (collectNames (fun r => r.category_name) rows)) ∧
      d.publishers = (if fails Batch.publishers then db.publishers
        else addPublisherNames db.publishers (collectNames (fun r => r.publisher_name) rows)) ∧
      d.books.length = db.books.length + rows.length ∧
      d.prices.length = db.prices.length + rows.length := by
  unfold runLoad
  simp only [hb, hp, Bool.false_eq_true, if_false]
  refine ⟨_, rfl, ?_, ?_, ?_, ?_, ?_⟩ <;>
    cases hA : fails Batch.authors <;> cases hC : fails Batch.categories <;>
      cases hP2 : fails Batch.publishers <;>
    simp [hA, hC, hP2, insertPrices, insertBooks, loadAuthors, loadCategories,
      loadPublishers, foldl_snoc_length]

/-- Witness for the amended C6: with the authors batch failing, the load
still completes, the authors table is untouched, the other two name batches
insert their rows, and the books and prices batches run. -/
theorem insert_data_batches_isolated_witness :
    ∃ d : DB, runLoad (fun b => b == Batch.authors) emptyDB [rowDataA] = Except.ok d ∧
      d.authors = (if (fun b => b == Batch.authors) Batch.authors then emptyDB.authors
        else addAuthorNames emptyDB.authors (collectNames (fun r => r.author_name) [rowDataA])) ∧
      d.categories = (if (fun b => b == Batch.authors) Batch.categories then emptyDB.categories
        else addCategoryNames emptyDB.categories (collectNames (fun r => r.category_name) [rowDataA])) ∧
      d.publishers = (if (fun b => b == Batch.authors) Batch.publishers then emptyDB.publishers
        else addPublisherNames emptyDB.publishers (collectNames (fun r => r.publisher_name) [rowDataA])) ∧
      d.books.length = emptyDB.books.length + [rowDataA].length ∧
      d.prices.length = emptyDB.prices.length + [rowDataA].length :=
  insert_data_batches_isolated (fun b => b == Batch.authors) emptyDB [rowDataA] rfl rfl

/-- Every present output of `sanitize_value` is some raw string stripped and
truncated to at most 255 characters. -/
theorem sanitize_value_normalized (o : Option String) (s : String)
    (hs : sanitize_value o = some s) :
    s.length ≤ 255 ∧ ∃ raw : String, s = String.mk ((pyStrip raw).data.take 255) := by
  cases o with
  | none => simp [sanitize_value] at hs
  | some t =>
    by_cases ht : t = ""
    · simp [sanitize_value, ht] at hs
    · simp [sanitize_value, ht] at hs
      refine ⟨?_, t, hs.symm⟩
      rw [← hs]
      simp only [String.length, String.data, List.length_take]
      exact Nat.min_le_left _ _

/-- The record built at the end of a successful `processRow` iteration
satisfies the normalization contract. -/
theorem rowNormalized_build (r : CsvRow) (aRaw cRaw pRaw tRaw : Option String) (q : ℚ)
    (hq : (match dictGetD r "Price Starting With ($)" (some "0") with
           | none => Except.ok (0 : ℚ)
           | some p => if p = "" then Except.ok (0 : ℚ) else pyFloat p) = Except.ok q) :
    rowNormalized r
      { author_name := sanitize_value aRaw, category_name := sanitize_value cRaw,
        publisher_name := sanitize_value pRaw, title := sanitize_value tRaw,
        description := sanitize_value (dictGetD r "Description" (some "")),
        price := q,
        publish_date :=
          match dictGetD r "Publish Date (Year)" none with
          | none => none
          | some y => if y = "" then none else some (y ++ "-01-01") } := by
  refine ⟨?_, ?_, ?_, ?_, ?_⟩
  · intro o ho s hs
    simp only [List.mem_cons, List.not_mem_nil, or_false] at ho
    rcases ho with h | h | h | h | h <;> subst h <;> exact sanitize_value_normalized _ _ hs
  · intro hcase
    rcases hcase with hnone | hempty
    · rw [hnone] at hq
      simpa using hq.symm
    · rw [hempty] at hq
      simpa using hq.symm
  · intro p hp hne
    simp only [hp] at hq
    rw [if_neg hne] at hq
    exact hq
  · intro hcase
    rcases hcase with hnone | hempty
    · simp [hnone]
    · simp [hempty]
  · intro y hy hne
    simp [hy, hne]

/-- C10: a CSV row the loader processes successfully has every present text
field trimmed of surrounding whitespace and truncated to at most 255
characters, its price parsed as a number with 0 for an empty or missing
price, and its publish date derived from the bare year with month and day
defaulted to January 1st. -/
theorem processRow_normalizes (r : CsvRow) (d : RowData)
    (h : processRow r = Except.ok d) : rowNormalized r d := by
  unfold processRow at h
  cases hA : dictGet r "Authors" with
  | error e => simp only [hA] at h; exact Except.noConfusion h
  | ok aRaw =>
    simp only [hA] at h
    cases hC : dictGet r "Category" with
    | error e => simp only [hC] at h; exact Except.noConfusion h
    | ok cRaw =>
      simp only [hC] at h
      cases hP : dictGet r "Publisher" with
      | error e => simp only [hP] at h; exact Except.noConfusion h
      | ok pRaw =>
        simp only [hP] at h
        cases hT : dictGet r "Title" with
        | error e => simp only [hT] at h; exact Except.noConfusion h
        | ok tRaw =>
          simp only [hT] at h
          cases hq : (match dictGetD r "Price Starting With ($)" (some "0") with
                      | none => Except.ok (0 : ℚ)
                      | some p => if p = "" then Except.ok (0 : ℚ) else pyFloat p) with
          | error e => simp only [hq] at h; exact Except.noConfusion h
          | ok q =>
            simp only [hq, Except.ok.injEq] at h
            subst h
            exact rowNormalized_build r aRaw cRaw pRaw tRaw q hq

/-- Witness for C10 on a concrete row: the author "  Jane  " is stored
trimmed, "7" parses to 7, and the year 2020 becomes 2020-01-01. -/
theorem processRow_normalizes_witness : rowNormalized witnessCsvRow witnessRowData :=
  processRow_normalizes witnessCsvRow witnessRowData (by with_unfolding_all rfl)

/-- When book ids are distinct, the keyed flatMap over `books` reduces to the
contribution of the unique matching book row. -/
theorem flatMap_if_book_key (p : PriceRow) {β : Type} (g : BookRow → List β) :
    ∀ (bs : List BookRow), (bs.map (fun b => b.book_id)).Nodup →
      (bs.flatMap (fun b => if p.book_id = some b.book_id then g b else [])) =
        (match bs.find? (fun b => p.book_id == some b.book_id) with
         | some b => g b
         | none => []) := by
  intro bs
  induction bs with
  | nil => intro h; rfl
  | cons b bs ih =>
    intro hnd
    rw [List.map_cons, List.nodup_cons] at hnd
    by_cases hk : p.book_id = some b.book_id
    · rw [List.flatMap_cons, if_pos hk, List.find?_cons_of_pos _ (by simp [hk])]
      have hnil : bs.flatMap
          (fun b' => if p.book_id = some b'.book_id then g b' else []) = [] := by
        rw [List.flatMap_eq_nil_iff]
        intro b' hb'
        rw [if_neg]
        intro hk'
        apply hnd.1
        injection hk.symm.trans hk' with h
        rw [h]
        exact List.mem_map_of_mem _ hb'
      rw [hnil, List.append_nil]
    · rw [List.flatMap_cons, if_neg hk, List.find?_cons_of_neg _ (by simp [hk]),
        List.nil_append]
      exact ih hnd.2

/-- When category ids are distinct, the price column contributed by the
categories flatMap is one copy of the price when a matching category exists
and nothing otherwise. -/
theorem flatMap_if_category_key (q : ℚ) (bid : Nat) (b : BookRow) :
    ∀ (cs : List CategoryRow), (cs.map (fun c => c.category_id)).Nodup →
      ((cs.flatMap (fun c => if b.category_id = some c.category_id
          then [(bid, q, c.category_id)] else [])).map (fun r => r.2.1)) =
        (if cs.any (fun c => b.category_id == some c.category_id) then [q] else []) := by
  intro cs
  induction cs with
  | nil => intro h; rfl
  | cons c cs ih =>
    intro hnd
    rw [List.map_cons, List.nodup_cons] at hnd
    by_cases hk : b.category_id = some c.category_id
    · rw [List.flatMap_cons, if_pos hk]
      have hnil : cs.flatMap
          (fun c' => if b.category_id = some c'.category_id
            then [(bid, q, c'.category_id)] else []) = [] := by
        rw [List.flatMap_eq_nil_iff]
        intro c' hc'
        rw [if_neg]
        intro hk'
        apply hnd.1
        injection hk.symm.trans hk' with h
        rw [h]
        exact List.mem_map_of_mem _ hc'
      rw [hnil]
      simp [hk]
    · rw [List.flatMap_cons, if_neg hk, List.nil_append, ih hnd.2]
      simp [hk]

/-- The price column a single prices row contributes to the summary join:
exactly one copy of its price when `priceRowCounted` holds, nothing
otherwise. -/
theorem inner_price_column (db : DB) (p : PriceRow)
    (h1 : (db.books.map (fun b => b.book_id)).Nodup)
    (h2 : (db.categories.map (fun c => c.category_id)).Nodup) :
    ((db.books.flatMap (fun b =>
        if p.book_id = some b.book_id then
          db.categories.flatMap (fun c =>
            if b.category_id = some c.category_id then
              [(b.book_id, p.price, c.category_id)]
            else [])
        else [])).map (fun r => r.2.1)) =
      (if priceRowCounted db p then [p.price] else []) := by
  rw [flatMap_if_book_key p _ db.books h1]
  unfold priceRowCounted
  cases hf : db.books.find? (fun b => p.book_id == some b.book_id) with
  | none => simp
  | some b => exact flatMap_if_category_key p.price b.book_id b db.categories h2

/-- The price column of the summary join equals the prices of the rows the
join counts, in order. -/
theorem summaryRows_price_column (db : DB)
    (h1 : (db.books.map (fun b => b.book_id)).Nodup)
    (h2 : (db.categories.map (fun c => c.category_id)).Nodup) :
    (summaryRows db).map (fun r => r.2.1) =
      (db.prices.filter (fun p => priceRowCounted db p)).map (fun p => p.price) := by
  unfold summaryRows
  induction db.prices with
  | nil => rfl
  | cons p ps ih =>
    rw [List.flatMap_cons, List.map_append, ih, inner_price_column db p h1 h2,
      List.filter_cons]
    cases hp : priceRowCounted db p
    · simp
    · simp

/-- Rounding zero gives zero. -/
theorem roundQ2_zero : roundQ2 0 = 0 := by
  norm_num [roundQ2]

/-- C8 counterexample: in a database where one priced book has a category
and another priced book has a NULL `category_id`, the Average Price the
dashboard shows is 10 — the mean over the single price row that joins a
category — while the spec's value, the rounded mean over all price rows
joined to existing books, is 15. -/
theorem summary_avg_excludes_uncategorized :
    (fetch_summary_statistics (run_fetch_summary_statistics twoBookDB)).1.map
        (fun s => s.2.1) = some 10 ∧
    specAveragePrice twoBookDB = some 15 ∧
    (fetch_summary_statistics (run_fetch_summary_statistics twoBookDB)).1.map
        (fun s => s.2.1) ≠ specAveragePrice twoBookDB := by
  refine ⟨?_, ?_, ?_⟩ <;> with_unfolding_all decide

/-- C8 amended: for databases whose `book_id` and `category_id` columns are
duplicate-free (they are primary keys), the Average Price value equals the
arithmetic mean, rounded to two decimals, of the price column over the rows
of the prices table whose `book_id` matches a book row that itself
references an existing category — books with a NULL or dangling
`category_id` are excluded by the join with `categories` — with 0 shown when
no row joins. -/
theorem summary_avg_joined_characterization (db : DB)
    (h1 : (db.books.map (fun b => b.book_id)).Nodup)
    (h2 : (db.categories.map (fun c => c.category_id)).Nodup) :
    (fetch_summary_statistics (run_fetch_summary_statistics db)).1.map (fun s => s.2.1) =
      some (match joinedAveragePrice db with
            | none => 0
            | some a => roundQ2 a) := by
  have hrun : undefinedColumnOf summaryRefs = none := rfl
  unfold run_fetch_summary_statistics
  rw [hrun]
  unfold fetch_summary_statistics joinedAveragePrice
  rw [summaryRows_price_column db h1 h2]
  cases he : ((db.prices.filter (fun p => priceRowCounted db p)).map
      (fun p => p.price)).isEmpty with
  | true => simp [he]
  | false =>
    simp only [he, Bool.false_eq_true, if_false, Option.map_some, Option.some.injEq]
    by_cases hz :
        ((db.prices.filter (fun p => priceRowCounted db p)).map (fun p => p.price)).sum /
          (((db.prices.filter (fun p => priceRowCounted db p)).map
            (fun p => p.price)).length : ℚ) = 0
    · rw [if_pos hz, hz, roundQ2_zero]
      rfl
    · rw [if_neg hz]
      rfl

/-- Witness for the amended C8 on `twoBookDB` (its book ids 1, 2 and its one
category id are duplicate-free): the shown average is the rounded mean over
the category-joined price rows. -/
theorem summary_avg_joined_characterization_witness :
    (fetch_summary_statistics (run_fetch_summary_statistics twoBookDB)).1.map
        (fun s => s.2.1) =
      some (match joinedAveragePrice twoBookDB with
            | none => 0
            | some a => roundQ2 a) :=
  summary_avg_joined_characterization twoBookDB (by decide) (by decide)

end Bookstore
